import Mathlib

/-!
Verification of the konak-bul backend (src/backend/server.py), a Turkish
accommodation search service: an AI query parser (AIService.parse_query), a
Tavily-backed web search provider (WebSearchService.search), a MongoDB-backed
fallback provider (FallbackDataService.search), and the /api/search aggregator
endpoint (search_accommodations).

External effects (the LLM chat call plus JSON extraction, the Tavily HTTP
call, the MongoDB query) are represented by oracle parameters of type
Except Unit _ : the error case stands for any exception raised inside the
corresponding try block, the ok case for the value the surrounding code
goes on to consume.  All embedded functions are total Lean functions, so
"never raises" is expressed by totality plus case analysis over the oracle.
-/

/-- Mirror of the pydantic model ParsedFilters (server.py lines 59-69).
Every field keeps exactly the default of the Python model; in particular
guest_count is Optional with default None and raw_query defaults to "". -/
structure ParsedFilters where
  city : Option String := none
  district : Option String := none
  price_min : Option Int := none
  price_max : Option Int := none
  guest_count : Option Int := none
  property_type : Option String := none
  features : List String := []
  check_in_date : Option String := none
  check_out_date : Option String := none
  raw_query : String := ""
deriving Repr, DecidableEq

/-- The dictionary obtained when the model reply is successfully reduced to a
JSON object (the parsed_data value of server.py line 159/161).  The fields are
read with dict.get, so each is optional; features defaults to the empty list
via parsed_data.get with default []. -/
structure JsonDict where
  city : Option String := none
  district : Option String := none
  price_min : Option Int := none
  price_max : Option Int := none
  guest_count : Option Int := none
  property_type : Option String := none
  features : Option (List String) := none
  check_in_date : Option String := none
  check_out_date : Option String := none
deriving Repr, DecidableEq

/-- AIService.parse_query (server.py lines 133-187).  The oracle modelOutcome
stands for the whole fallible prefix of the try block: the chat.send_message
call, the markdown / balanced-object JSON extraction, json.loads, and pydantic
validation; Except.error is any exception on that path, Except.ok the resulting
dictionary.  The except branch (lines 183-187) returns
ParsedFilters(raw_query=query), i.e. every other field keeps its default. -/
def AIService.parse_query (modelOutcome : Except Unit JsonDict) (query : String) :
    ParsedFilters :=
  match modelOutcome with
  | Except.ok d =>
      { city := d.city
        district := d.district
        price_min := d.price_min
        price_max := d.price_max
        guest_count := d.guest_count
        property_type := d.property_type
        features := d.features.getD []
        check_in_date := d.check_in_date
        check_out_date := d.check_out_date
        raw_query := query }
  | Except.error _ => { raw_query := query }

/-- The concrete query named by the spec, "Antalya(')da 4 kişilik villa,
havuzlu", built with an explicit U+0027 apostrophe character. -/
def c1Query : String := "Antalya" ++ (Char.ofNat 39).toString ++ "da 4 kişilik villa, havuzlu"

/-- ASCII lowercasing via Char.toLower, modelling Python str.lower on the
ASCII range (the only range the keyword and city checks depend on). -/
def lowerStr (s : String) : String := String.mk (s.data.map Char.toLower)

/-- Helper for substring tests: needle is a prefix of the haystack. -/
def listStartsWith : List Char → List Char → Bool
  | [], _ => true
  | _ :: _, [] => false
  | a :: as, b :: bs => a == b && listStartsWith as bs

/-- Helper for substring tests: needle occurs contiguously in the haystack,
modelling the Python operator in on strings. -/
def listOccursIn (needle : List Char) : List Char → Bool
  | [] => listStartsWith needle []
  | hay@(_ :: t) => listStartsWith needle hay || listOccursIn needle t

/-- Python substring test: needle in hay. -/
def containsSub (needle hay : String) : Bool := listOccursIn needle.data hay.data

/-- One raw Tavily result item as consumed by WebSearchService.search
(server.py lines 248-251): title, content and url are read with
item.get(key, the empty string); image is read only when the key is present
and truthy, so it is kept optional here (some "" models a present but empty
value, which the code treats like an absent one). -/
structure TavilyItem where
  title : String := ""
  content : String := ""
  url : String := ""
  image : Option String := none
deriving Repr, DecidableEq

/-- The fixed accommodation keyword list of server.py lines 260-262. -/
def accommodation_keywords : List String :=
  ["hotel", "otel", "villa", "apart", "resort", "konaklama",
   "tatil", "booking", "accommodation", "stay", "lodging",
   "pension", "pansiyon", "bungalov", "bungalow"]

/-- The is_accommodation test of server.py line 264: some keyword occurs in
the lowercased title or in the lowercased content. -/
def isAccommodation (it : TavilyItem) : Bool :=
  accommodation_keywords.any fun kw =>
    containsSub kw (lowerStr it.title) || containsSub kw (lowerStr it.content)

/-- The fallback image chain of server.py lines 273-292, keyed on the
lowercased property type, the lowercased title, and the (lowercased or, for
the İstanbul test, original) city. -/
def fallback_image (fl : ParsedFilters) (title_lower : String) : String :=
  let city_lower := lowerStr (fl.city.getD "")
  let prop_type := lowerStr (fl.property_type.getD "")
  if containsSub "villa" prop_type || containsSub "villa" title_lower then
    "https://images.unsplash.com/photo-1613490493576-7fde63acd811?w=800&q=80"
  else if containsSub "bungalov" prop_type || containsSub "bungalov" title_lower then
    "https://images.unsplash.com/photo-1510798831971-661eb04b3739?w=800&q=80"
  else if containsSub "resort" prop_type || containsSub "resort" title_lower then
    "https://images.unsplash.com/photo-1571896349842-33c89424de2d?w=800&q=80"
  else if containsSub "apart" prop_type || containsSub "apart" title_lower then
    "https://images.unsplash.com/photo-1522708323590-d24dbb6b0267?w=800&q=80"
  else if containsSub "antalya" city_lower || containsSub "alanya" city_lower then
    "https://images.unsplash.com/photo-1602002418082-a4443e081dd1?w=800&q=80"
  else if containsSub "bodrum" city_lower then
    "https://images.unsplash.com/photo-1520250497591-112f2f40a3f4?w=800&q=80"
  else if containsSub "istanbul" city_lower || containsSub "İstanbul" (fl.city.getD "") then
    "https://images.unsplash.com/photo-1541432901042-2d8bd64b4a9b?w=800&q=80"
  else
    "https://images.unsplash.com/photo-1566073771259-6a8506099945?w=800&q=80"

/-- Longest run of decimal digits at the head of the character list, with the
remainder. -/
def takeDigits : List Char → List Char × List Char
  | [] => ([], [])
  | c :: cs =>
      if c.isDigit then
        let p := takeDigits cs
        (c :: p.1, p.2)
      else ([], c :: cs)

/-- Drop a leading run of whitespace. -/
def dropSpaces : List Char → List Char
  | [] => []
  | c :: cs => if c.isWhitespace then dropSpaces cs else c :: cs

/-- First alternative of the currency alternation TL | TRY-sign | USD | EUR
that matches at the head of the list, in regex-alternation order. -/
def currencyAt (cs : List Char) : Option String :=
  if listStartsWith "TL".data cs then some "TL"
  else if listStartsWith "₺".data cs then some "₺"
  else if listStartsWith "USD".data cs then some "USD"
  else if listStartsWith "EUR".data cs then some "EUR"
  else none

/-- Attempt to match the price pattern digits+ [.,]? digits* spaces* currency
at the head of the list (the regex of server.py line 297), returning the two
capture groups.  The greedy alternative with the optional separator present is
tried first, exactly as the backtracking regex engine would. -/
def matchPriceAt (cs : List Char) : Option (String × String) :=
  match takeDigits cs with
  | ([], _) => none
  | (d1, rest) =>
      let withSep : Option (String × String) :=
        match rest with
        | c :: rest2 =>
            if c == '.' || c == ',' then
              let p := takeDigits rest2
              match currencyAt (dropSpaces p.2) with
              | some cur => some (String.mk (d1 ++ c :: p.1), cur)
              | none => none
            else none
        | [] => none
      match withSep with
      | some r => some r
      | none =>
          match currencyAt (dropSpaces rest) with
          | some cur => some (String.mk d1, cur)
          | none => none

/-- Leftmost match of the price pattern, as re.search finds it. -/
def scanPrice : List Char → Option (String × String)
  | [] => none
  | cs@(_ :: t) =>
      match matchPriceAt cs with
      | some r => some r
      | none => scanPrice t

/-- Price extraction of server.py lines 295-299: the first
(digits [.,] digits, currency) match in the content, rendered as
"amount currency"; none when no match. -/
def extract_price (content : String) : Option String :=
  (scanPrice content.data).map fun p => p.1 ++ " " ++ p.2

/-- The result_item dictionary built at server.py lines 301-310. -/
structure ResultItem where
  title : String
  description : String
  url : String
  image : String
  price : Option String
  city : String
  district : String
  features : List String
deriving Repr, DecidableEq

/-- Construction of one result_item from a raw Tavily item (server.py lines
267-310): image falls back to fallback_image when absent or empty, the
description is the content truncated to 250 characters or a fixed Turkish
placeholder when the content is empty, the url is copied verbatim, and city,
district and features are taken from the filters. -/
def mkResultItem (fl : ParsedFilters) (it : TavilyItem) : ResultItem :=
  let title_lower := lowerStr it.title
  let image_url :=
    match it.image with
    | some s => if s = "" then fallback_image fl title_lower else s
    | none => fallback_image fl title_lower
  { title := it.title
    description := if it.content = "" then "Konaklama detayları için tıklayın"
                   else it.content.take 250
    url := it.url
    image := image_url
    price := extract_price it.content
    city := fl.city.getD ""
    district := fl.district.getD ""
    features := fl.features }

/-- One iteration of the result loop of server.py lines 248-315: append the
converted item when it passes the accommodation keyword test, else drop it. -/
def webStep (fl : ParsedFilters) (acc : List ResultItem) (it : TavilyItem) :
    List ResultItem :=
  if isAccommodation it then acc ++ [mkResultItem fl it] else acc

/-- The full result loop over the raw Tavily items. -/
def webSearchResults (fl : ParsedFilters) (items : List TavilyItem) :
    List ResultItem :=
  items.foldl (webStep fl) []

/-- Python truthiness guard for optional strings used when building the
search query: an absent or empty value contributes nothing. -/
def optPart (o : Option String) : List String :=
  match o with
  | some s => if s = "" then [] else [s]
  | none => []

/-- The search query construction of server.py lines 197-228: city, district,
property type, up to two features, the date span, the guest count and the
fixed trailing keyword, joined by single spaces; each optional part is guarded
by Python truthiness (so value 0 or the empty string contributes nothing). -/
def build_search_query (fl : ParsedFilters) : String :=
  let ci := fl.check_in_date.getD ""
  let co := fl.check_out_date.getD ""
  let date_parts : List String :=
    if ci ≠ "" ∧ co ≠ "" then [ci ++ " - " ++ co]
    else if ci ≠ "" then [ci]
    else []
  let guest_parts : List String :=
    match fl.guest_count with
    | some g => if g ≠ 0 then [toString g ++ " kişi"] else []
    | none => []
  let parts :=
    optPart fl.city ++ optPart fl.district ++ optPart fl.property_type ++
    (if fl.features.isEmpty then [] else fl.features.take 2) ++
    date_parts ++ guest_parts ++ ["konaklama Turkey"]
  String.intercalate " " parts

/-- WebSearchService.search (server.py lines 195-324).  The oracle
tavilyRespond stands for the tavily_client.search HTTP call on the built
query: Except.error is any exception inside the try block (caught at lines
322-324, returning the empty list), Except.ok none a response that is falsy
or lacks the results key (leaving results empty), and Except.ok (some items)
a response whose results list is items. -/
def WebSearchService.search (fl : ParsedFilters)
    (tavilyRespond : String → Except Unit (Option (List TavilyItem))) :
    List ResultItem :=
  match tavilyRespond (build_search_query fl) with
  | Except.error _ => []
  | Except.ok none => []
  | Except.ok (some items) => webSearchResults fl items

/-- Mirror of the stored accommodation documents queried by
FallbackDataService.search (the Accommodation model and seed records of
server.py; created_at and id are irrelevant to the query and omitted). -/
structure Accommodation where
  title : String := ""
  description : String := ""
  city : String := ""
  district : Option String := none
  property_type : String := ""
  price : Option String := none
  features : List String := []
  image : Option String := none
  url : Option String := none
deriving Repr, DecidableEq

/-- A MongoDB case-insensitive unanchored regex constraint applied to a text
field: modelled as a case-insensitive substring test (the filter values are
plain city / district / type names, not regex metacharacters). -/
def regexIMatch (pat field : String) : Bool :=
  containsSub (lowerStr pat) (lowerStr field)

/-- The MongoDB query built by FallbackDataService.search (server.py lines
331-343): each constraint is added only when the filter value is truthy;
district documents with no district value cannot match a district regex;
the features constraint is Mongo in-semantics on an array field: some stored
feature belongs to the requested list. -/
def mongoMatch (fl : ParsedFilters) (acc : Accommodation) : Bool :=
  (match fl.city with
   | some c => if c = "" then true else regexIMatch c acc.city
   | none => true) &&
  (match fl.district with
   | some d =>
       if d = "" then true
       else match acc.district with
            | some ad => regexIMatch d ad
            | none => false
   | none => true) &&
  (match fl.property_type with
   | some p => if p = "" then true else regexIMatch p acc.property_type
   | none => true) &&
  (if fl.features.isEmpty then true
   else acc.features.any fun f => fl.features.contains f)

/-- FallbackDataService.search (server.py lines 329-359).  The oracle dbDocs
stands for the Mongo fetch: Except.error is any exception inside the try
block (caught at lines 357-359, returning the empty list), Except.ok docs the
store contents; the query filter and the to_list(50) cap are applied to it. -/
def FallbackDataService.search (fl : ParsedFilters)
    (dbDocs : Except Unit (List Accommodation)) : List Accommodation :=
  match dbDocs with
  | Except.error _ => []
  | Except.ok docs => (docs.filter (mongoMatch fl)).take 50

/-- The SearchResponse shape of server.py lines 74-77; results is a list of
plain dictionaries in Python, either web result items or fallback documents,
modelled as a sum. -/
structure SearchResponse where
  results : List (Sum ResultItem Accommodation)
  count : Nat
  source : String
deriving Repr, DecidableEq

/-- The /api/search endpoint search_accommodations (server.py lines 381-419):
run the web provider first; when it returned at least one result answer with
it under source "web"; otherwise run the fallback provider and answer with
its results (possibly empty) under source "fallback". -/
def search_accommodations (fl : ParsedFilters)
    (tavilyRespond : String → Except Unit (Option (List TavilyItem)))
    (dbDocs : Except Unit (List Accommodation)) : SearchResponse :=
  let web_results := WebSearchService.search fl tavilyRespond
  if web_results.length > 0 then
    { results := web_results.map Sum.inl
      count := web_results.length
      source := "web" }
  else
    let fallback_results := FallbackDataService.search fl dbDocs
    { results := fallback_results.map Sum.inr
      count := fallback_results.length
      source := "fallback" }

/-- Modelled from the spec: the repository under src/ has no DeepLinkRewriter;
this is the base-URL computation the spec describes, the input URL cut before
its query string and fragment. -/
def strip_url (url : String) : String :=
  String.mk (url.data.takeWhile fun c => !(c == '?' || c == '#'))

/-- Modelled from the spec: a calendar date for the DeepLinkRewriter. -/
structure StayDate where
  year : Nat
  month : Nat
  day : Nat
deriving Repr, DecidableEq

/-- Two-digit zero padding for date rendering. -/
def pad2 (n : Nat) : String := if n < 10 then "0" ++ toString n else toString n

/-- ISO date rendering year-month-day. -/
def fmtIso (d : StayDate) : String :=
  toString d.year ++ "-" ++ pad2 d.month ++ "-" ++ pad2 d.day

/-- Dotted day.month.year date rendering. -/
def fmtDotted (d : StayDate) : String :=
  pad2 d.day ++ "." ++ pad2 d.month ++ "." ++ toString d.year

/-- Modelled from the spec: one entry of the fixed booking-site table, with
its own date format choice and its own query parameter names for check-in,
check-out and adult count. -/
structure DomainRule where
  domain : String
  useIso : Bool
  checkin_param : String
  checkout_param : String
  adults_param : String
deriving Repr, DecidableEq

/-- Modelled from the spec: the fixed table of known booking-site domains,
first match in table order wins. -/
def deeplink_rules : List DomainRule :=
  [⟨"booking.com", true, "checkin", "checkout", "group_adults"⟩,
   ⟨"hotels.com", true, "startDate", "endDate", "adults"⟩,
   ⟨"etstur.com", false, "check_in", "check_out", "adult"⟩,
   ⟨"otelz.com", false, "checkin", "checkout", "adults"⟩]

/-- First table entry whose domain occurs in the base URL. -/
def find_rule (base : String) : Option DomainRule :=
  deeplink_rules.find? fun r => containsSub r.domain base

/-- Modelled from the spec: the DeepLinkRewriter, absent from src/.  Strip
query string and fragment to get the base URL; when either date is absent
return the original, un-stripped URL unchanged; otherwise look the domain up
in the fixed table and return base ++ provider-specific query string, or the
original URL when no entry matches. -/
def rewrite (url : String) (check_in check_out : Option StayDate)
    (guest_count : Nat) : String :=
  match check_in, check_out with
  | some ci, some co =>
      let base := strip_url url
      match find_rule base with
      | some r =>
          let fmt := if r.useIso then fmtIso else fmtDotted
          base ++ "?" ++ r.checkin_param ++ "=" ++ fmt ci ++
            "&" ++ r.checkout_param ++ "=" ++ fmt co ++
            "&" ++ r.adults_param ++ "=" ++ toString guest_count
      | none => url
  | _, _ => url

/-- Modelled from the spec: base nightly price per property type, increasing
along pansiyon < apart < otel < butik otel < bungalov < resort < villa, with
the hotel base as default for unknown types. -/
def base_price (property_type : String) : Nat :=
  if property_type = "pansiyon" then 800
  else if property_type = "apart" then 1200
  else if property_type = "otel" then 1800
  else if property_type = "butik otel" then 2500
  else if property_type = "bungalov" then 2800
  else if property_type = "resort" then 3500
  else if property_type = "villa" then 4500
  else 1800

/-- Modelled from the spec: fixed surcharges for the recognized high-value
amenities pool, sea view, spa, jacuzzi. -/
def amenity_surcharges : List (String × Nat) :=
  [("havuzlu", 500), ("denize sıfır", 600), ("spa", 400), ("jakuzi", 300)]

/-- Sum of the surcharges of the recognized amenities present in features. -/
def amenity_total (features : List String) : Nat :=
  amenity_surcharges.foldl
    (fun acc p => if features.contains p.1 then acc + p.2 else acc) 0

/-- Modelled from the spec: seasonal multiplier in tenths — high season
months times 1.3, low season months times 0.8, shoulder months times 1.1. -/
def season_mult (month : Nat) : Nat :=
  if month = 6 ∨ month = 7 ∨ month = 8 then 13
  else if month = 11 ∨ month = 12 ∨ month = 1 ∨ month = 2 ∨ month = 3 then 8
  else 11

/-- Modelled from the spec: the configured minimum nightly price. -/
def PRICE_FLOOR : Nat := 500

/-- Modelled from the spec: the PriceEstimator, absent from src/.  Base price
per property type, plus a per-extra-guest surcharge beyond two guests, plus
amenity surcharges, scaled by the seasonal multiplier, minus a small per-rank
decay, floored at the configured minimum. -/
def estimate (property_type : String) (guest_count : Nat)
    (features : List String) (month : Nat) (rank : Nat) : Nat :=
  max PRICE_FLOOR
    ((base_price property_type + 400 * (guest_count - 2) + amenity_total features)
      * season_mult month / 10 - 50 * rank)

/-- Filters with every field at its default, used as concrete inputs. -/
def emptyFilters : ParsedFilters := {}

/-- A raw Tavily item with an accommodation keyword and a URL carrying a
query string, used to exhibit duplicate results. -/
def dupItem : TavilyItem :=
  { title := "Grand Hotel", content := "", url := "https://example.com/hotel?ref=1" }

/-- A raw Tavily item with an accommodation keyword whose url key is absent,
so the url field is the Python default, the empty string. -/
def noUrlItem : TavilyItem :=
  { title := "Sahil Otel", content := "denize yakın konaklama", url := "" }

/-- Claim C1 (counterexample): on the Antalya example query, when the model
path fails, parse_query does NOT populate the filter fields from the text:
city, guest_count and property_type stay none and features stays empty,
contradicting city = antalya, guest_count = 4, property_type = villa,
pool tag in features. -/
theorem parse_fallback_no_extraction_cex :
    (AIService.parse_query (Except.error ()) c1Query).city = none ∧
    (AIService.parse_query (Except.error ()) c1Query).guest_count = none ∧
    (AIService.parse_query (Except.error ()) c1Query).property_type = none ∧
    (AIService.parse_query (Except.error ()) c1Query).features = [] :=
  ⟨rfl, rfl, rfl, rfl⟩

/-- Claim C1 (amended): when the model-backed path raises or its reply is
unparseable, parse_query falls back to a ParsedFilters carrying only the raw
query; there is no deterministic keyword/regex extractor, so every other
field keeps its default. -/
theorem parse_fallback_raw_query_only (q : String) :
    AIService.parse_query (Except.error ()) q =
      { city := none, district := none, price_min := none, price_max := none,
        guest_count := none, property_type := none, features := [],
        check_in_date := none, check_out_date := none, raw_query := q } :=
  rfl

/-- Claim C3 (counterexample): the ParsedFilters returned by parse_query on
the fallback path has guest_count = none, refuting that guest_count is always
non-null and at least 1 with default 2. -/
theorem parse_guest_count_none_cex :
    (AIService.parse_query (Except.error ()) "İstanbul otel").guest_count = none :=
  rfl

/-- Claim C3 (amended): guest_count is optional with default none; parse_query
returns exactly the model-supplied guest_count when the model path succeeds
and none on fallback — no floor of 1 and no default of 2 is applied. -/
theorem parse_guest_count_propagation (o : Except Unit JsonDict) (q : String) :
    (AIService.parse_query o q).guest_count =
      (match o with
       | Except.ok d => d.guest_count
       | Except.error _ => none) := by
  cases o <;> rfl

/-- Claim C4: parse_query is total (it is a plain Lean function into
ParsedFilters, never raising), and for every oracle outcome — model success
or any exception during the call or JSON decoding — the returned record has
raw_query equal to the input query. -/
theorem parse_total_raw_query_preserved (o : Except Unit JsonDict) (q : String) :
    (AIService.parse_query o q).raw_query = q := by
  cases o <;> rfl

/-- The result loop is the keyword filter followed by item conversion, for
any initial accumulator. -/
theorem webStep_foldl (fl : ParsedFilters) (items : List TavilyItem) :
    ∀ acc : List ResultItem,
      items.foldl (webStep fl) acc =
        acc ++ (items.filter isAccommodation).map (mkResultItem fl) := by
  induction items with
  | nil => intro acc; simp
  | cons it t ih =>
      intro acc
      cases h : isAccommodation it with
      | true =>
          simp [List.foldl_cons, webStep, h, List.filter_cons, ih]
      | false =>
          simp [List.foldl_cons, webStep, h, List.filter_cons, ih]

/-- Claim C10: the web-search provider emits exactly the raw items that pass
the fixed accommodation keyword test (some keyword of accommodation_keywords
occurs case-insensitively in the title or the content), each converted by
mkResultItem; items matching no keyword are silently discarded and never
appear in the response. -/
theorem web_results_keyword_gate (fl : ParsedFilters) (items : List TavilyItem) :
    webSearchResults fl items =
      (items.filter isAccommodation).map (mkResultItem fl) := by
  simpa using webStep_foldl fl items []

/-- Claim C5 (counterexample): two identical accommodation-related raw items
with the same URL (query string and all) both appear in the response, so two
results share the dedup key, the stripped URL — nothing is collapsed. -/
theorem web_results_duplicate_url_cex :
    (webSearchResults emptyFilters [dupItem, dupItem]).map (fun r => strip_url r.url) =
      ["https://example.com/hotel", "https://example.com/hotel"] := rfl

/-- Claim C5 (amended): the web-search provider performs no deduplication:
every raw item passing the keyword test contributes exactly one result, so
items sharing a (stripped) URL yield as many results as they occur. -/
theorem web_results_no_dedup_length (fl : ParsedFilters) (items : List TavilyItem) :
    (webSearchResults fl items).length = (items.filter isAccommodation).length := by
  simp [webSearchResults, webStep_foldl fl items]

/-- Claim C7 (counterexample): a keyword-matching raw item whose url key is
absent (so the Python default, the empty string, is used) produces a result
whose url is the empty string — not the sentinel "#". -/
theorem web_result_empty_url_cex :
    (webSearchResults emptyFilters [noUrlItem]).map ResultItem.url = [""] := rfl

/-- Claim C7 (amended): the url of every emitted result is the raw item url
copied verbatim (the empty string when the source URL is absent); no "#"
sentinel is substituted anywhere in the web-search path. -/
theorem web_results_url_passthrough (fl : ParsedFilters) (items : List TavilyItem) :
    (webSearchResults fl items).map ResultItem.url =
      (items.filter isAccommodation).map TavilyItem.url := by
  rw [webSearchResults, webStep_foldl fl items [], List.nil_append, List.map_map]
  rfl

/-- Claim C2: the aggregator queries the web provider first and the fallback
provider second; the response carries exactly the first nonempty provider
output with the matching source label, never a merge, and when both providers
are empty it is the empty list labeled with the last provider, "fallback". -/
theorem search_first_nonempty_provider_wins (fl : ParsedFilters)
    (tr : String → Except Unit (Option (List TavilyItem)))
    (db : Except Unit (List Accommodation)) :
    (search_accommodations fl tr db).results =
      (if WebSearchService.search fl tr = [] then
         (FallbackDataService.search fl db).map Sum.inr
       else (WebSearchService.search fl tr).map Sum.inl) ∧
    (search_accommodations fl tr db).source =
      (if WebSearchService.search fl tr = [] then "fallback" else "web") ∧
    (search_accommodations fl tr db).count =
      (if WebSearchService.search fl tr = [] then
         (FallbackDataService.search fl db).length
       else (WebSearchService.search fl tr).length) := by
  cases h : WebSearchService.search fl tr with
  | nil => refine ⟨?_, ?_, ?_⟩ <;> simp [search_accommodations, h]
  | cons a t => refine ⟨?_, ?_, ?_⟩ <;> simp [search_accommodations, h]

/-- Claim C6: a raising provider is exactly a zero-result provider: the web
service maps an exception to the empty list, the aggregator then behaves as
if the web provider had returned no results and proceeds to the fallback
provider; a raising fallback provider likewise yields the empty "fallback"
response — no provider exception reaches the caller of search. -/
theorem provider_exception_zero_results (fl : ParsedFilters)
    (db : Except Unit (List Accommodation)) :
    WebSearchService.search fl (fun _ => Except.error ()) = [] ∧
    search_accommodations fl (fun _ => Except.error ()) db =
      search_accommodations fl (fun _ => Except.ok (some [])) db ∧
    FallbackDataService.search fl (Except.error ()) = [] ∧
    search_accommodations fl (fun _ => Except.error ()) (Except.error ()) =
      { results := [], count := 0, source := "fallback" } :=
  ⟨rfl, rfl, rfl, rfl⟩

/-- Claim C8: for every URL and guest count, when either stay date is absent
the rewriter returns the original input URL unchanged — not even stripped of
its query string or fragment. -/
theorem rewrite_missing_date_id (url : String) (ci co : Option StayDate)
    (g : Nat) (h : ci = none ∨ co = none) :
    rewrite url ci co g = url := by
  rcases h with h | h
  · subst h; cases co <;> rfl
  · subst h; cases ci <;> rfl

/-- Claim C8 witness: concrete instance with the check-in date absent on a
known-domain URL carrying a query string. -/
theorem rewrite_missing_date_id_witness :
    ((none : Option StayDate) = none ∨ (some ⟨2025, 9, 5⟩ : Option StayDate) = none) ∧
    rewrite "https://www.booking.com/hotel/tr/ex.html?aid=304142" none
        (some ⟨2025, 9, 5⟩) 4 =
      "https://www.booking.com/hotel/tr/ex.html?aid=304142" :=
  ⟨Or.inl rfl,
   rewrite_missing_date_id "https://www.booking.com/hotel/tr/ex.html?aid=304142"
     none (some ⟨2025, 9, 5⟩) 4 (Or.inl rfl)⟩

/-- Claim C9: holding property type, features, month and rank fixed, estimate
is monotonically non-decreasing in the guest count, and its value is always
at least the configured floor, hence a positive integer. -/
theorem estimate_monotone_floor (pt : String) (f : List String) (m r : Nat)
    (g1 g2 : Nat) (h : g1 ≤ g2) :
    estimate pt g1 f m r ≤ estimate pt g2 f m r ∧
    PRICE_FLOOR ≤ estimate pt g1 f m r ∧
    0 < estimate pt g1 f m r := by
  refine ⟨?_, ?_, ?_⟩
  · unfold estimate
    refine max_le_max (le_refl _) ?_
    refine Nat.sub_le_sub_right ?_ _
    refine Nat.div_le_div_right ?_
    refine mul_le_mul_right' ?_ _
    omega
  · unfold estimate
    exact le_max_left _ _
  · unfold estimate
    exact lt_of_lt_of_le (by norm_num [PRICE_FLOOR]) (le_max_left _ _)

/-- Claim C9 witness: concrete instance, villa with a pool in July at rank 3,
guest counts 2 and 5. -/
theorem estimate_monotone_floor_witness :
    2 ≤ 5 ∧
    (estimate "villa" 2 ["havuzlu"] 7 3 ≤ estimate "villa" 5 ["havuzlu"] 7 3 ∧
     PRICE_FLOOR ≤ estimate "villa" 2 ["havuzlu"] 7 3 ∧
     0 < estimate "villa" 2 ["havuzlu"] 7 3) :=
  ⟨by decide, estimate_monotone_floor "villa" ["havuzlu"] 7 3 2 5 (by decide)⟩
